import Mathlib

/-!
Verification of the background-remover script (src/remove_bg.py).

The script loads an image, converts it to a four-channel (RGBA)
representation, replaces every pixel whose red, green and blue channels
are each strictly greater than 240 by the fully transparent white pixel
(255, 255, 255, 0), keeps every other pixel unchanged, and saves the
result.  Any failure is caught by a single top-level handler that prints
one error line.

We embed the per-pixel transform, the RGBA conversion, the pixel loop,
and the top-level try/except driver as executable Lean definitions and
prove the specification's claims about them.
-/

/-- A four-channel pixel: red, green, blue, alpha, each an 8-bit value
(the embedding uses `Nat`; all claims are insensitive to the 0..255 range). -/
structure Pixel where
  r : Nat
  g : Nat
  b : Nat
  a : Nat
deriving DecidableEq

/-- The threshold test of line 15 of src/remove_bg.py:
`item[0] > 240 and item[1] > 240 and item[2] > 240`. -/
def isNearWhite (p : Pixel) : Bool :=
  decide (240 < p.r) && decide (240 < p.g) && decide (240 < p.b)

/-- The per-pixel branch of lines 15-18: a near-white pixel becomes the
fully transparent white pixel `(255, 255, 255, 0)`, any other pixel is
appended unchanged. -/
def transformPixel (p : Pixel) : Pixel :=
  if isNearWhite p then ⟨255, 255, 255, 0⟩ else p

/-- The pixel loop of lines 12-18 of src/remove_bg.py, building `newData`
by appending one output pixel per input pixel. -/
def removeBg : List Pixel → List Pixel
  | [] => []
  | item :: rest => transformPixel item :: removeBg rest

/-- An in-memory image: dimensions plus the row-major pixel data returned
by `img.getdata()`. -/
structure Image where
  width : Nat
  height : Nat
  data : List Pixel
deriving DecidableEq

/-- A decoded source file before the `img.convert("RGBA")` call: either a
three-channel (RGB) image or a four-channel (RGBA) one. -/
inductive RawImage where
  | rgb : Nat → Nat → List (Nat × Nat × Nat) → RawImage
  | rgba : Nat → Nat → List Pixel → RawImage
deriving DecidableEq

/-- Conversion of one three-channel pixel to four channels: alpha
defaults to 255. -/
def toRGBA (p : Nat × Nat × Nat) : Pixel :=
  ⟨p.1, p.2.1, p.2.2, 255⟩

/-- The `img.convert("RGBA")` call of line 9: a three-channel source gets
alpha 255 on every pixel, a four-channel source keeps its alpha values. -/
def convertRGBA : RawImage → Image
  | .rgb w h d => ⟨w, h, d.map toRGBA⟩
  | .rgba w h d => ⟨w, h, d⟩

/-- Lines 10-20 of src/remove_bg.py on an already-converted image:
`getdata`, the pixel loop, and `putdata`, which replaces the pixel data
and leaves the dimensions untouched. -/
def processImage (img : Image) : Image :=
  { img with data := removeBg img.data }

/-- The hard-coded input path of line 4. -/
def source : String := "d:\\BuddyMate\\assets\\logo.png"

/-- The hard-coded output path of line 5. -/
def target : String := "d:\\BuddyMate\\assets\\logo_transparent.png"

/-- The filesystem visible to the script: an association of paths to
decoded images. -/
def FileSystem : Type := List (String × RawImage)

/-- `Image.open` on line 8: succeeds with the decoded file when the path
exists, fails with an error description otherwise. -/
def openImage (fs : FileSystem) (path : String) : Except String RawImage :=
  match List.lookup path fs with
  | some raw => Except.ok raw
  | none => Except.error ("[Errno 2] No such file or directory: " ++ path)

/-- The body of the `try` block, lines 8-22: open the source, convert to
RGBA, run the pixel loop, save the result under the target path, and
produce the success line. -/
def tryBody (fs : FileSystem) : Except String (FileSystem × String) := do
  let raw ← openImage fs source
  let img := convertRGBA raw
  let res := processImage img
  let fs2 : FileSystem := (target, RawImage.rgba res.width res.height res.data) :: fs
  Except.ok (fs2, "Success: Created " ++ target)

/-- The whole script, lines 7-24: run the `try` body; on failure the
single `except` handler leaves the filesystem unchanged and prints one
error line; either way the program returns normally.  The result is the
final filesystem together with the list of printed lines. -/
def runProgram (fs : FileSystem) : FileSystem × List String :=
  match tryBody fs with
  | .ok (fs2, msg) => (fs2, [msg])
  | .error e => (fs, ["Error: " ++ e])

/-- `removeBg` is the map of the per-pixel transform over the data. -/
theorem removeBg_eq_map (l : List Pixel) : removeBg l = l.map transformPixel := by
  induction l with
  | nil => rfl
  | cons x xs ih => simp [removeBg, ih]

/-- The output pixel at any index is the transform of the input pixel at
that index. -/
theorem removeBg_getElem? (l : List Pixel) (i : Nat) :
    (removeBg l)[i]? = Option.map transformPixel l[i]? := by
  rw [removeBg_eq_map, List.getElem?_map]

/-- The transform replaces a pixel passing the threshold test by
transparent white. -/
theorem transformPixel_of_nearWhite (p : Pixel)
    (hr : 240 < p.r) (hg : 240 < p.g) (hb : 240 < p.b) :
    transformPixel p = ⟨255, 255, 255, 0⟩ := by
  simp [transformPixel, isNearWhite, hr, hg, hb]

/-- The transform keeps a pixel failing the threshold test unchanged. -/
theorem transformPixel_of_not_nearWhite (p : Pixel)
    (h : ¬(240 < p.r ∧ 240 < p.g ∧ 240 < p.b)) :
    transformPixel p = p := by
  have : isNearWhite p = false := by
    simp only [isNearWhite, Bool.and_eq_false_iff, decide_eq_false_iff_not]
    by_contra hc
    push_neg at hc
    exact h ⟨hc.1.1, hc.1.2, hc.2⟩
  simp [transformPixel, this]

/-- The per-pixel transform is idempotent. -/
theorem transformPixel_idem (p : Pixel) :
    transformPixel (transformPixel p) = transformPixel p := by
  unfold transformPixel
  by_cases h : isNearWhite p = true
  · simp [h]
  · simp [h]

/-- C1: every pixel of the four-channel input whose red, green and blue
channels are each strictly greater than 240 is mapped to exactly
(255, 255, 255, 0), regardless of its other channel values. -/
theorem C1_nearWhite_becomes_transparent (l : List Pixel) (i : Nat) (p : Pixel)
    (h : l[i]? = some p) (hr : 240 < p.r) (hg : 240 < p.g) (hb : 240 < p.b) :
    (removeBg l)[i]? = some ⟨255, 255, 255, 0⟩ := by
  rw [removeBg_getElem?, h, Option.map_some']
  rw [transformPixel_of_nearWhite p hr hg hb]

/-- Witness for C1 at the pixel (250, 251, 252, 7). -/
theorem C1_witness :
    (removeBg [⟨250, 251, 252, 7⟩])[0]? = some ⟨255, 255, 255, 0⟩ :=
  C1_nearWhite_becomes_transparent [⟨250, 251, 252, 7⟩] 0 ⟨250, 251, 252, 7⟩
    rfl (by decide) (by decide) (by decide)

/-- C2: every pixel of the four-channel input failing the threshold test
is copied to the output exactly, alpha channel included; the conversion
to four channels gives alpha 255 to a pixel of a three-channel source. -/
theorem C2_other_pixels_unchanged (l : List Pixel) (i : Nat) (p : Pixel)
    (h : l[i]? = some p) (hn : ¬(240 < p.r ∧ 240 < p.g ∧ 240 < p.b)) :
    (removeBg l)[i]? = some p ∧ ∀ t : Nat × Nat × Nat, (toRGBA t).a = 255 := by
  refine ⟨?_, fun t => rfl⟩
  rw [removeBg_getElem?, h, Option.map_some', transformPixel_of_not_nearWhite p hn]

/-- Witness for C2 at the pixel (240, 255, 255, 9). -/
theorem C2_witness :
    (removeBg [⟨240, 255, 255, 9⟩])[0]? = some ⟨240, 255, 255, 9⟩ ∧
      ∀ t : Nat × Nat × Nat, (toRGBA t).a = 255 :=
  C2_other_pixels_unchanged [⟨240, 255, 255, 9⟩] 0 ⟨240, 255, 255, 9⟩
    rfl (by decide)

/-- C3: the threshold is strict greater-than on all three colour
channels: (240, 240, 240) is retained, (241, 241, 241) is converted,
(241, 241, 239) is retained, for every alpha value. -/
theorem C3_threshold_is_strict (a : Nat) :
    transformPixel ⟨240, 240, 240, a⟩ = ⟨240, 240, 240, a⟩ ∧
      transformPixel ⟨241, 241, 241, a⟩ = ⟨255, 255, 255, 0⟩ ∧
      transformPixel ⟨241, 241, 239, a⟩ = ⟨241, 241, 239, a⟩ := by
  refine ⟨?_, ?_, ?_⟩ <;> simp [transformPixel, isNearWhite]

/-- C4: the transform is idempotent on every pixel list: applying it to
its own output yields the same list as applying it once. -/
theorem C4_removeBg_idempotent (l : List Pixel) :
    removeBg (removeBg l) = removeBg l := by
  rw [removeBg_eq_map, removeBg_eq_map, List.map_map]
  exact List.map_congr_left fun p _ => transformPixel_idem p

/-- C5: the replacement decision depends only on the colour channels: a
pixel with r, g, b all above 240 becomes (255, 255, 255, 0) whatever its
alpha is, and two pixels differing only in alpha get the same decision. -/
theorem C5_alpha_irrelevant (r g b al al2 : Nat) :
    (240 < r → 240 < g → 240 < b →
      transformPixel ⟨r, g, b, al⟩ = ⟨255, 255, 255, 0⟩) ∧
      isNearWhite ⟨r, g, b, al⟩ = isNearWhite ⟨r, g, b, al2⟩ := by
  refine ⟨fun hr hg hb => transformPixel_of_nearWhite _ hr hg hb, rfl⟩

/-- Witness for C5 with colour (250, 251, 252) and alphas 3 and 9. -/
theorem C5_witness :
    transformPixel ⟨250, 251, 252, 3⟩ = ⟨255, 255, 255, 0⟩ ∧
      isNearWhite ⟨250, 251, 252, 3⟩ = isNearWhite ⟨250, 251, 252, 9⟩ :=
  ⟨(C5_alpha_irrelevant 250 251 252 3 9).1 (by decide) (by decide) (by decide),
    (C5_alpha_irrelevant 250 251 252 3 9).2⟩

/-- C6: the 2-by-1 three-channel input [(255,255,255), (10,20,30)],
converted with default alpha 255 and transformed, gives exactly
[(255,255,255,0), (10,20,30,255)]. -/
theorem C6_scenario :
    processImage (convertRGBA (.rgb 2 1 [(255, 255, 255), (10, 20, 30)])) =
      ⟨2, 1, [⟨255, 255, 255, 0⟩, ⟨10, 20, 30, 255⟩]⟩ := by
  decide

/-- C7: the transform keeps the image dimensions and produces exactly one
output pixel per input pixel; only the pixel data changes. -/
theorem C7_dimensions_preserved (img : Image) :
    (processImage img).width = img.width ∧
      (processImage img).height = img.height ∧
      (processImage img).data.length = img.data.length := by
  refine ⟨rfl, rfl, ?_⟩
  show (removeBg img.data).length = img.data.length
  rw [removeBg_eq_map, List.length_map]

/-- C8: when the source path does not exist, the top-level handler
catches the failure: the program prints exactly one error line holding
the failure description, returns normally, and writes no output file
(the filesystem is unchanged). -/
theorem C8_missing_source_caught (fs : FileSystem)
    (h : List.lookup source fs = none) :
    (runProgram fs).2 =
      ["Error: " ++ ("[Errno 2] No such file or directory: " ++ source)] ∧
      (runProgram fs).1 = fs := by
  unfold runProgram tryBody openImage
  rw [h]
  exact ⟨rfl, rfl⟩

/-- Witness for C8 on the empty filesystem. -/
theorem C8_witness :
    (runProgram []).2 =
      ["Error: " ++ ("[Errno 2] No such file or directory: " ++ source)] ∧
      (runProgram []).1 = [] :=
  C8_missing_source_caught [] rfl

/-- C9: each pixel is processed independently: the output pixel at index
i is the transform of the input pixel at index i alone, so two inputs
agreeing at index i produce outputs agreeing at index i. -/
theorem C9_pixelwise_independent (l1 l2 : List Pixel) (i : Nat)
    (h : l1[i]? = l2[i]?) :
    (removeBg l1)[i]? = (removeBg l2)[i]? ∧
      (removeBg l1)[i]? = Option.map transformPixel l1[i]? := by
  rw [removeBg_getElem?, removeBg_getElem?, h]
  exact ⟨rfl, rfl⟩

/-- Witness for C9 on two lists agreeing at index 0 only. -/
theorem C9_witness :
    (removeBg [⟨1, 2, 3, 4⟩, ⟨250, 250, 250, 250⟩])[0]? =
      (removeBg [⟨1, 2, 3, 4⟩, ⟨9, 9, 9, 9⟩])[0]? ∧
      (removeBg [⟨1, 2, 3, 4⟩, ⟨250, 250, 250, 250⟩])[0]? =
        Option.map transformPixel ([⟨1, 2, 3, 4⟩, ⟨250, 250, 250, 250⟩] : List Pixel)[0]? :=
  C9_pixelwise_independent [⟨1, 2, 3, 4⟩, ⟨250, 250, 250, 250⟩]
    [⟨1, 2, 3, 4⟩, ⟨9, 9, 9, 9⟩] 0 rfl

/-- C10: every output pixel is either exactly (255, 255, 255, 0) or
literally the corresponding input pixel. -/
theorem C10_output_dichotomy (l : List Pixel) (i : Nat) (p : Pixel)
    (h : l[i]? = some p) :
    (removeBg l)[i]? = some ⟨255, 255, 255, 0⟩ ∨ (removeBg l)[i]? = some p := by
  rw [removeBg_getElem?, h, Option.map_some']
  unfold transformPixel
  by_cases hw : isNearWhite p = true
  · left
    rw [hw]
    rfl
  · right
    simp [hw]

/-- Witness for C10 at the pixel (10, 20, 30, 40). -/
theorem C10_witness :
    (removeBg [⟨10, 20, 30, 40⟩])[0]? = some ⟨255, 255, 255, 0⟩ ∨
      (removeBg [⟨10, 20, 30, 40⟩])[0]? = some ⟨10, 20, 30, 40⟩ :=
  C10_output_dichotomy [⟨10, 20, 30, 40⟩] 0 ⟨10, 20, 30, 40⟩ rfl
